import Mathlib

/-!
Shallow embedding of the `mlol_client` library (`mlol_client/mlol_client.py`),
a scraping client for the MLOL e-lending portal.  Python strings are modelled
as `List Char`; Python substring tests, `str.strip`, `str.lower`, `str.split`
and `int()` are modelled explicitly; BeautifulSoup lookups are abstracted as
optional text fields of page-view structures (an element that the selector
finds is `some` its text, a missing element is `none`).  Fallible Python code
is modelled in `Except PyErr`, with one constructor per Python exception class
that can escape the modelled code.
-/

namespace MlolClient

/-- Python strings, as lists of characters. -/
abbrev Str := List Char

/-- `str.strip()`: remove leading and trailing whitespace. -/
def pyStrip (s : Str) : Str :=
  ((s.dropWhile Char.isWhitespace).reverse.dropWhile Char.isWhitespace).reverse

/-- `str.lower()` (ASCII case folding; the vocabulary matched is ASCII). -/
def pyLower (s : Str) : Str := s.map Char.toLower

/-- `needle in hay` for Python strings: substring containment. -/
def hasSubstr (hay needle : Str) : Bool :=
  match hay with
  | [] => needle.isEmpty
  | _ :: t => needle.isPrefixOf hay || hasSubstr t needle

/-- `str.split()` with no separator: split on whitespace runs, no empty parts. -/
def pySplitWS (s : Str) : List Str :=
  (s.splitOnP Char.isWhitespace).filter (fun p => ¬ p.isEmpty)

/-- Digits of a decimal literal; `none` when empty or a non-digit appears. -/
def digitsToNat : Str → Option Nat
  | [] => none
  | [c] => if c.isDigit then some (c.toNat - '0'.toNat) else none
  | c :: rest =>
    if c.isDigit then
      (digitsToNat rest).map (fun n => (c.toNat - '0'.toNat) * 10 ^ rest.length + n)
    else none

/-- Python `int(s)`: optional sign and decimal digits after stripping
whitespace; `none` models a raised `ValueError`. -/
def pyInt (s : Str) : Option Int :=
  let t := pyStrip s
  match t with
  | '-' :: rest => (digitsToNat rest).map (fun n => -(n : Int))
  | '+' :: rest => (digitsToNat rest).map (fun n => (n : Int))
  | _ => (digitsToNat t).map (fun n => (n : Int))

/-- Python exception classes that can escape the modelled code paths. -/
inductive PyErr
  | typeError
  | stopIteration
  | valueError
  | attributeError
  | indexError
  | nameError
  | keyError
  | authenticationError
  | reraised
deriving DecidableEq, Repr

/-! ### Status vocabulary (`_parse_book_status`) -/

/-- The closed status set; Python represents `unknown` as `None`, modelled
as `none` of `Option BookStatus`. -/
inductive BookStatus
  | available
  | owned
  | reserved
  | taken
  | unavailable
deriving DecidableEq, Repr

def kwScarica : Str := "scarica".toList
def kwRipeti : Str := "ripeti".toList
def kwPrenotato : Str := "prenotato".toList
def kwOccupato : Str := "occupato".toList
def kwNonDisponibile : Str := "non disponibile".toList

/-- `MLOLClient._parse_book_status`: strip, lower-case, then match the fixed
vocabulary by substring, in source order; unmatched text gives `None`. -/
def parse_book_status (status : Str) : Option BookStatus :=
  let s := pyLower (pyStrip status)
  if hasSubstr s kwScarica then some BookStatus.available
  else if hasSubstr s kwRipeti then some BookStatus.owned
  else if hasSubstr s kwPrenotato then some BookStatus.reserved
  else if hasSubstr s kwOccupato then some BookStatus.taken
  else if hasSubstr s kwNonDisponibile then some BookStatus.unavailable
  else none

def exampleRipetiDownload : Str := "  RIPETI DOWNLOAD  ".toList

/-! ### Detail page parser (`_parse_book_page`) -/

/-- One child of the `itemprop="description"` div, as the Python code observes
it: whether `hasattr(x, "text")` holds, the element's truthiness under
`if description := ...`, and its `.text`. -/
structure DescChild where
  hasText : Bool
  truthy : Bool
  text : Str
deriving DecidableEq, Repr

/-- View of a book detail page: for every selector the source consults, the
found element's text (`none` when the selector finds nothing).
`descriptionDiv` is `page.find("div", attrs=\x7b"itemprop": "description"\x7d)`
with its children; `formatsSpan` is the text reached by
`page.find("b", text=re.compile("FORMATO")).parent.parent.find("span").text`
when every step of that chain succeeds. -/
structure BookPageView where
  titleEl : Option Str
  authorsEl : Option Str
  publisherEl : Option Str
  isbnEls : List Str
  statusEl : Option Str
  descriptionDiv : Option (List DescChild)
  languageEl : Option Str
  yearEl : Option Str
  formatsSpan : Option Str
deriving DecidableEq, Repr

/-- The result dictionary of `_parse_book_page` as read back through
`defaultdict(lambda: None)`: a field an extraction never set reads as `none`. -/
structure BookData where
  title : Option Str := none
  authors : Option (List Str) := none
  publisher : Option Str := none
  ISBNs : Option (List Str) := none
  status : Option BookStatus := none
  description : Option Str := none
  language : Option Str := none
  year : Option Int := none
  formats : Option (List Str) := none
  drm : Option Bool := none
deriving DecidableEq, Repr

def kwDrm : Str := "drm".toList

/-- `[a.strip() for a in s.split(";")]` applied after `s.strip()`. -/
def splitAuthors (s : Str) : List Str := (s.splitOn ';').map pyStrip

/-- The guarded `try` block at the end of `_parse_book_page`: sets `drm`
first, then `formats` from the first whitespace token split on `/`;
an `AttributeError` while locating the span (modelled by
`formatsSpan = none`) is caught before `drm` is assigned, while an
`IndexError` from `split()[0]` on all-whitespace text is caught after
`drm` is assigned; either way the exception is swallowed with a warning. -/
def applyFormats (p : BookPageView) (d : BookData) : BookData :=
  match p.formatsSpan with
  | none => d
  | some raw =>
    let s := pyStrip raw
    let d := { d with drm := some (hasSubstr (pyLower s) kwDrm) }
    match pySplitWS s with
    | [] => d
    | t :: _ => { d with formats := some ((t.splitOn '/').map (fun f => pyLower (pyStrip f))) }

/-- `MLOLClient._parse_book_page`.  Each walrus-guarded field is set when its
element is found.  The description step is not guarded: when the description
div is absent, `filter(..., None)` raises `TypeError`; when no child has a
`text` attribute, `next` raises `StopIteration`.  The year step applies
`int()` to the element text and raises `ValueError` on non-integer text.
Only the formats block sits in a `try`/`except`. -/
def parse_book_page (p : BookPageView) : Except PyErr BookData :=
  let d : BookData := {}
  let d := match p.titleEl with
    | some t => { d with title := some (pyStrip t) }
    | none => d
  let d := match p.authorsEl with
    | some a => { d with authors := some (splitAuthors (pyStrip a)) }
    | none => d
  let d := match p.publisherEl with
    | some x => { d with publisher := some (pyStrip x) }
    | none => d
  let d := if p.isbnEls.isEmpty then d
    else { d with ISBNs := some (p.isbnEls.map pyStrip) }
  let d := match p.statusEl with
    | some s => { d with status := parse_book_status (pyStrip s) }
    | none => d
  match p.descriptionDiv with
  | none => Except.error PyErr.typeError
  | some children =>
    match children.filter (fun c => c.hasText) with
    | [] => Except.error PyErr.stopIteration
    | c :: _ =>
      let d := if c.truthy then { d with description := some (pyStrip c.text) } else d
      let d := match p.languageEl with
        | some l => { d with language := some (pyStrip l) }
        | none => d
      match p.yearEl with
      | some y =>
        match pyInt (pyStrip y) with
        | none => Except.error PyErr.valueError
        | some n => Except.ok (applyFormats p { d with year := some n })
      | none => Except.ok (applyFormats p d)

/-! ### Listing page parser (`_parse_search_page`) -/

/-- A `<p>` element as the author fallback observes it: its
`attrs["itemprop"]` (absent attribute raises a caught `KeyError`) and its
`.string` (which BeautifulSoup gives as `None` for mixed content). -/
structure PElem where
  itemprop : Option Str
  string : Option Str
deriving DecidableEq, Repr

/-- One `.result-item`: `find("h4").attrs["title"]` collapsed to `none` when
the `h4` or its attribute is missing, `find("a").attrs["href"]` likewise, and
`select("p > a.authorref")` as `some .string-of-first` when non-empty. -/
structure ResultItem where
  h4TitleAttr : Option Str
  aHref : Option Str
  authorref : Option (Option Str)
deriving DecidableEq, Repr

/-- A listing page: its result items in document order and `page.find("p")`,
the page-global first paragraph used by the author fallback. -/
structure ListingPage where
  items : List ResultItem
  firstP : Option PElem
deriving DecidableEq, Repr

/-- A partial record built from a listing item. -/
structure PartialBook where
  id : Str
  title : Str
  authors : Option (List Str)
deriving DecidableEq, Repr

def kwIdEq : Str := "id=".toList
def kwAuthor : Str := "author".toList

/-- `re.search(r"(?<=id=)\d+$", url)`: the leftmost position from which the
rest of the string is one or more digits, preceded immediately by `id=`;
the match is that digit suffix. -/
def searchIdRe (url : Str) : Option Str :=
  ((List.range (url.length + 1)).find? (fun i =>
      kwIdEq.isSuffixOf (url.take i)
        && ¬ (url.drop i).isEmpty && (url.drop i).all Char.isDigit)).map
    (fun i => url.drop i)

/-- The loop body of `_parse_search_page` over the remaining items.  `pos` is
the 0-based index `i` of the enumeration; the skip log records `i+1` as in
`"Skipping book #\x7bi+1\x7d"` (emitted via `logging.error`).  `av` models the
Python local variable `authors`, which persists across loop iterations:
`none` is the unbound state, `some v` means bound to `v` (`v = none` models
Python `None`).  When the fallback paragraph carries an `itemprop` different
from `"author"`, no branch assigns `authors`; reading it unbound at the
`books.append` call raises `NameError`, aborting the whole parse. -/
def parseItems (firstP : Option PElem) :
    List ResultItem → Nat → Option (Option Str) →
    Except PyErr (List PartialBook × List Nat)
  | [], _, _ => Except.ok ([], [])
  | item :: rest, pos, av =>
    let skip := (parseItems firstP rest (pos + 1) av).map
      (fun r => (r.1, (pos + 1) :: r.2))
    match item.h4TitleAttr, item.aHref with
    | some title, some url =>
      match searchIdRe url with
      | none => skip
      | some id =>
        let av' : Option (Option Str) :=
          match item.authorref with
          | some str? =>
            match str? with
            | some s => some (some (pyStrip s))
            | none => some none
          | none =>
            match firstP with
            | none => some none
            | some p =>
              match p.itemprop with
              | none => some none
              | some ip =>
                if ip = kwAuthor then
                  match p.string with
                  | some s => some (some (pyStrip s))
                  | none => some none
                else av
        match av' with
        | none => Except.error PyErr.nameError
        | some authorsVal =>
          let authors : Option (List Str) :=
            match authorsVal with
            | some s => if s.isEmpty then none else some (splitAuthors s)
            | none => none
          (parseItems firstP rest (pos + 1) (some authorsVal)).map
            (fun r => (⟨id, title, authors⟩ :: r.1, r.2))
    | _, _ => skip

/-- `MLOLClient._parse_search_page`: returns the parsed partial records in
document order together with the 1-based positions of skipped items, or the
Python exception that escapes the loop. -/
def parse_search_page (page : ListingPage) :
    Except PyErr (List PartialBook × List Nat) :=
  parseItems page.firstP page.items 0 none

/-! ### Download workflow (`download_book_by_id`, `_redownload_owned_book`) -/

/-- A full book record as `get_book_by_id` returns it (class `MLOLBook`). -/
structure MLOLBook where
  id : Str
  title : Str
  authors : Option (List Str) := none
  status : Option BookStatus := none
  publisher : Option Str := none
  ISBNs : Option (List Str) := none
  language : Option Str := none
  description : Option Str := none
  year : Option Int := none
  formats : Option (List Str) := none
  drm : Option Bool := none
deriving DecidableEq, Repr

/-- An HTTP response as the download flow observes it. -/
structure HttpResp where
  statusCode : Nat
  location : Option Str
  body : Str
deriving DecidableEq, Repr

/-- The requests the download flow can issue, with their distinguishing
parameters (the direct download request carries the explicit
`form` format parameter). -/
inductive ReqEvent
  | getBook (id : Str)
  | resources
  | redownload (idp : Str)
  | download (unid : Str) (form : Str)
  | followRedirect (loc : Str)
deriving DecidableEq, Repr

/-- Log messages emitted by the download flow. -/
inductive DlLog
  | errAuthRequired
  | infoRedownloading
  | errNotAvailable (status : Option BookStatus)
  | errLoanNotFound (id : Str)
  | infoDownloaded (id : Str)
  | errDownloadFailed (id : Str)
deriving DecidableEq, Repr

/-- The environment a `download_book_by_id` call runs against: the session's
`.ASPXAUTH` cookie, the record `get_book_by_id` produces for the target id,
the loan id that `_redownload_owned_book`'s scrape of the resources page
yields (`none` when the lookup chain fails), and the responses the portal
returns for the redownload request, the direct download request, and any
followed redirect. -/
structure DlWorld where
  aspxauth : Option Str
  book : Option MLOLBook
  loanId : Option Str
  redownloadResp : HttpResp
  downloadResp : HttpResp
  redirectResp : Str → HttpResp

/-- `if not self.session.cookies.get(".ASPXAUTH")`: the cookie is missing or
its value is the empty (falsy) string. -/
def cookieFalsy (c : Option Str) : Bool :=
  match c with
  | none => true
  | some s => s.isEmpty

def kwEpub : Str := "epub".toList
def kwFulfillment : Str := "<fulfillmentToken".toList

/-- Test of the final response body for the fulfillment-token marker
(`response.text.startswith("<fulfillmentToken")`). -/
def markerOutcome (bookId : Str) (reqs : List ReqEvent) (resp : HttpResp) :
    Except PyErr (Option Str) × List ReqEvent × List DlLog :=
  if kwFulfillment.isPrefixOf resp.body then
    (Except.ok (some resp.body), reqs, [DlLog.infoDownloaded bookId])
  else
    (Except.ok none, reqs, [DlLog.errDownloadFailed bookId])

/-- The tail of `download_book_by_id` shared by both download routes:
follow one explicit 302 redirect (a 302 without a `Location` header would
raise `KeyError`), then test the body for the fulfillment-token marker. -/
def finishDownload (w : DlWorld) (bookId : Str) (reqs : List ReqEvent)
    (resp : HttpResp) : Except PyErr (Option Str) × List ReqEvent × List DlLog :=
  if resp.statusCode = 302 then
    match resp.location with
    | some loc =>
      markerOutcome bookId (reqs ++ [ReqEvent.followRedirect loc]) (w.redirectResp loc)
    | none => (Except.error PyErr.keyError, reqs, [])
  else
    markerOutcome bookId reqs resp

/-- `MLOLClient.download_book_by_id` over a `DlWorld`.  Returns the Python
outcome (a raised exception, or the returned value — `none` models both the
bare `return` and `return None`), the requests issued after the initial
`get_book_by_id` page fetch, and the log messages.  When `get_book_by_id`
returns `None`, reading `book.status` raises `AttributeError`; when the
owned-book loan lookup fails, `_redownload_owned_book` logs and re-raises. -/
def download_book_by_id (w : DlWorld) (bookId : Str) :
    Except PyErr (Option Str) × List ReqEvent × List DlLog :=
  if cookieFalsy w.aspxauth then
    (Except.ok none, [], [DlLog.errAuthRequired])
  else
    match w.book with
    | none => (Except.error PyErr.attributeError, [ReqEvent.getBook bookId], [])
    | some b =>
      if b.status = some BookStatus.owned then
        match w.loanId with
        | none =>
          (Except.error PyErr.reraised,
            [ReqEvent.getBook bookId, ReqEvent.resources],
            [DlLog.infoRedownloading, DlLog.errLoanNotFound bookId])
        | some lid =>
          let r := finishDownload w bookId
            [ReqEvent.getBook bookId, ReqEvent.resources, ReqEvent.redownload lid]
            w.redownloadResp
          (r.1, r.2.1, DlLog.infoRedownloading :: r.2.2)
      else if b.status ≠ some BookStatus.available then
        (Except.ok none, [ReqEvent.getBook bookId], [DlLog.errNotAvailable b.status])
      else
        finishDownload w bookId
          [ReqEvent.getBook bookId, ReqEvent.download bookId kwEpub]
          w.downloadResp

/-! ### Paginated search (`_search_books_paginated`) and the deep batch -/

/-- `MLOLClient.max_threads`. -/
def maxThreads : Nat := 5

/-- `ThreadPoolExecutor(max_workers=n)`: CPython raises
`ValueError("max_workers must be greater than 0")` when `n <= 0`. -/
def mkThreadPool (maxWorkers : Nat) : Except PyErr Unit :=
  if maxWorkers = 0 then Except.error PyErr.valueError else Except.ok ()

/-- Completion of the pool's tasks, one slot per dispatch index: tasks finish
in the arbitrary order `order`, and a finishing task `j` stores its result
`f xs[j]` into slot `j`. -/
def execFill {α β : Type} (f : α → β) (xs : List α) :
    List Nat → List (Option β) → List (Option β)
  | [], slots => slots
  | j :: rest, slots => execFill f xs rest (slots.set j ((xs[j]?).map f))

/-- Read the slots back in dispatch order; succeeds when every slot holds a
result. -/
def gatherSlots {β : Type} : List (Option β) → Option (List β)
  | [] => some []
  | none :: _ => none
  | some b :: rest => (gatherSlots rest).map (fun l => b :: l)

/-- `executor.map(f, xs)` gathered as a list: slots are filled in completion
order `order` and read back in dispatch order; the read-back succeeds when
every slot was filled (every dispatched task completed). -/
def executorMap {α β : Type} (f : α → β) (xs : List α) (order : List Nat) :
    Option (List β) :=
  gatherSlots (execFill f xs order (List.replicate xs.length none))

/-- The `deep` branch of `_search_books_paginated` for one page:
`ThreadPoolExecutor(max_workers=min(len(books), max_threads))` followed by
`list(executor.map(self.get_book_by_id, (b.id for b in books)))`.
`getBook` stands for `get_book_by_id` (its per-id result), `order` for the
completion order of the concurrent fetches.  An incomplete gather cannot
occur for a genuine completion order (a permutation of the dispatch
indices) and is mapped to an error. -/
def searchPageDeepBatch (getBook : Str → Option MLOLBook)
    (books : List PartialBook) (order : List Nat) :
    Except PyErr (List (Option MLOLBook)) :=
  match mkThreadPool (min books.length maxThreads) with
  | Except.error e => Except.error e
  | Except.ok _ =>
    match executorMap (fun id => getBook id) (books.map (fun b => b.id)) order with
    | some res => Except.ok res
    | none => Except.error PyErr.valueError

/-- One page step of `_search_books_paginated`: the shallow branch yields the
listing records as parsed; the deep branch yields the enriched batch. -/
def searchPageStep (getBook : Str → Option MLOLBook) (deep : Bool)
    (books : List PartialBook) (order : List Nat) :
    Except PyErr (List PartialBook ⊕ List (Option MLOLBook)) :=
  if deep then (searchPageDeepBatch getBook books order).map Sum.inr
  else Except.ok (Sum.inl books)

/-! ### Authentication (`_get_auth_cookies`) -/

/-- A login form as RoboBrowser reports it: the set of its field names. -/
structure LoginForm where
  fields : List Str
deriving DecidableEq, Repr

def kwLusername : Str := "lusername".toList

/-- `MLOLClient._get_auth_cookies` after opening the login page: select the
forms whose fields contain `lusername` and take element `[0]`; an empty
selection raises `IndexError`.  On success the chosen form is filled and
submitted; `submitted` stands for the cookie jar the submission returns. -/
def get_auth_cookies {κ : Type} (forms : List LoginForm) (submitted : LoginForm → κ) :
    Except PyErr κ :=
  match forms.filter (fun f => f.fields.contains kwLusername) with
  | [] => Except.error PyErr.indexError
  | f :: _ => Except.ok (submitted f)

/-! ### Reservation outcome (`reserve_book_by_id`) -/

/-- Log messages emitted while interpreting the reservation response. -/
inductive ReserveLog
  | warnActiveReservation
  | errFailed
  | errUnknownOutcome
deriving DecidableEq, Repr

def kwConSuccesso : Str := "con successo".toList
def kwPrenotazioneAttiva : Str := "prenotazione attiva".toList

/-- The tail of `reserve_book_by_id`: interpret the `#lblInfo` result-message
element (`none` when `select_one` finds nothing — then the function falls
through to the unknown-outcome error and implicitly returns `None`). -/
def reserve_outcome (lblInfo : Option Str) : Option Bool × List ReserveLog :=
  match lblInfo with
  | some t =>
    let message := pyLower (pyStrip t)
    if hasSubstr message kwConSuccesso then (some true, [])
    else if hasSubstr message kwPrenotazioneAttiva then
      (some true, [ReserveLog.warnActiveReservation])
    else (some false, [ReserveLog.errFailed])
  | none => (none, [ReserveLog.errUnknownOutcome])

/-! ## Claims -/

/-- C1: the status parser maps any text whose stripped, lower-cased form
contains `scarica` to `available`; containing `ripeti` (and not an
earlier-matched keyword) to `owned`; `prenotato` to `reserved`; `occupato`
to `taken`; `non disponibile` to `unavailable`; text matching none of the
vocabulary to the unknown status (`none`).  The function is total, so no
input raises an error.  In particular `"  RIPETI DOWNLOAD  "` maps to
`owned`. -/
theorem claim_C1_parse_book_status (s : Str) :
    (hasSubstr (pyLower (pyStrip s)) kwScarica = true →
      parse_book_status s = some BookStatus.available) ∧
    (hasSubstr (pyLower (pyStrip s)) kwScarica = false →
      hasSubstr (pyLower (pyStrip s)) kwRipeti = true →
      parse_book_status s = some BookStatus.owned) ∧
    (hasSubstr (pyLower (pyStrip s)) kwScarica = false →
      hasSubstr (pyLower (pyStrip s)) kwRipeti = false →
      hasSubstr (pyLower (pyStrip s)) kwPrenotato = true →
      parse_book_status s = some BookStatus.reserved) ∧
    (hasSubstr (pyLower (pyStrip s)) kwScarica = false →
      hasSubstr (pyLower (pyStrip s)) kwRipeti = false →
      hasSubstr (pyLower (pyStrip s)) kwPrenotato = false →
      hasSubstr (pyLower (pyStrip s)) kwOccupato = true →
      parse_book_status s = some BookStatus.taken) ∧
    (hasSubstr (pyLower (pyStrip s)) kwScarica = false →
      hasSubstr (pyLower (pyStrip s)) kwRipeti = false →
      hasSubstr (pyLower (pyStrip s)) kwPrenotato = false →
      hasSubstr (pyLower (pyStrip s)) kwOccupato = false →
      hasSubstr (pyLower (pyStrip s)) kwNonDisponibile = true →
      parse_book_status s = some BookStatus.unavailable) ∧
    (hasSubstr (pyLower (pyStrip s)) kwScarica = false →
      hasSubstr (pyLower (pyStrip s)) kwRipeti = false →
      hasSubstr (pyLower (pyStrip s)) kwPrenotato = false →
      hasSubstr (pyLower (pyStrip s)) kwOccupato = false →
      hasSubstr (pyLower (pyStrip s)) kwNonDisponibile = false →
      parse_book_status s = none) ∧
    parse_book_status exampleRipetiDownload = some BookStatus.owned := by
  refine ⟨?_, ?_, ?_, ?_, ?_, ?_, by decide⟩
  · intro h1
    simp [parse_book_status, h1]
  · intro h1 h2
    simp [parse_book_status, h1, h2]
  · intro h1 h2 h3
    simp [parse_book_status, h1, h2, h3]
  · intro h1 h2 h3 h4
    simp [parse_book_status, h1, h2, h3, h4]
  · intro h1 h2 h3 h4 h5
    simp [parse_book_status, h1, h2, h3, h4, h5]
  · intro h1 h2 h3 h4 h5
    simp [parse_book_status, h1, h2, h3, h4, h5]

def statusInputScarica : Str := "SCARICA il libro".toList
def statusInputPrenotato : Str := "Prenotato".toList
def statusInputOccupato : Str := "occupato".toList
def statusInputNonDisp : Str := "Non disponibile".toList
def statusInputOther : Str := "qualcosa di strano".toList

/-- Witness for C1: each branch of the claim applied at a concrete input. -/
theorem claim_C1_parse_book_status_witness :
    parse_book_status statusInputScarica = some BookStatus.available ∧
    parse_book_status exampleRipetiDownload = some BookStatus.owned ∧
    parse_book_status statusInputPrenotato = some BookStatus.reserved ∧
    parse_book_status statusInputOccupato = some BookStatus.taken ∧
    parse_book_status statusInputNonDisp = some BookStatus.unavailable ∧
    parse_book_status statusInputOther = none := by
  refine ⟨?_, ?_, ?_, ?_, ?_, ?_⟩
  · exact (claim_C1_parse_book_status statusInputScarica).1 (by decide)
  · exact (claim_C1_parse_book_status exampleRipetiDownload).2.1 (by decide) (by decide)
  · exact (claim_C1_parse_book_status statusInputPrenotato).2.2.1 (by decide) (by decide)
      (by decide)
  · exact (claim_C1_parse_book_status statusInputOccupato).2.2.2.1 (by decide) (by decide)
      (by decide) (by decide)
  · exact (claim_C1_parse_book_status statusInputNonDisp).2.2.2.2.1 (by decide) (by decide)
      (by decide) (by decide) (by decide)
  · exact (claim_C1_parse_book_status statusInputOther).2.2.2.2.2.1 (by decide) (by decide)
      (by decide) (by decide) (by decide)

/-! Helper lemmas about the worker-pool model: filling the slots in any
completion order that covers every dispatch index yields the sequential map. -/

theorem execFill_getElem? {α β : Type} (f : α → β) (xs : List α) :
    ∀ (order : List Nat) (slots : List (Option β)) (i : Nat),
      (∀ j ∈ order, j < slots.length) →
      (execFill f xs order slots)[i]? =
        if i ∈ order then some ((xs[i]?).map f) else slots[i]? := by
  intro order
  induction order with
  | nil => intro slots i _; simp [execFill]
  | cons j rest ih =>
    intro slots i h
    have hj : j < slots.length := h j (by simp)
    have hrest : ∀ k ∈ rest, k < (slots.set j ((xs[j]?).map f)).length := by
      intro k hk
      rw [List.length_set]
      exact h k (by simp [hk])
    rw [execFill, ih _ i hrest]
    by_cases hin : i ∈ rest
    · simp [hin]
    · simp only [hin, if_false, List.mem_cons, or_false]
      rw [List.getElem?_set]
      by_cases hij : j = i
      · subst hij
        simp [hj]
      · rw [if_neg hij, if_neg (fun h => hij h.symm)]

theorem gatherSlots_map_some {β : Type} (l : List β) :
    gatherSlots (l.map some) = some l := by
  induction l with
  | nil => rfl
  | cons b t ih => simp [gatherSlots, ih]

theorem executorMap_perm {α β : Type} (f : α → β) (xs : List α) (order : List Nat)
    (hperm : order.Perm (List.range xs.length)) :
    executorMap f xs order = some (xs.map f) := by
  have hmem : ∀ j, j ∈ order ↔ j < xs.length := fun j => by
    rw [hperm.mem_iff, List.mem_range]
  have hlt : ∀ j ∈ order, j < (List.replicate xs.length (none : Option β)).length := by
    intro j hj
    rw [List.length_replicate]
    exact (hmem j).1 hj
  have hfill : execFill f xs order (List.replicate xs.length none) =
      (xs.map f).map some := by
    apply List.ext_getElem?
    intro i
    rw [execFill_getElem? f xs order _ i hlt]
    by_cases hi : i < xs.length
    · rw [if_pos ((hmem i).2 hi)]
      simp [List.getElem?_eq_getElem hi]
    · have hge : xs.length ≤ i := Nat.le_of_not_lt hi
      rw [if_neg (fun h => hi ((hmem i).1 h))]
      rw [List.getElem?_eq_none (by simpa using hge),
        List.getElem?_eq_none (by simpa using hge)]
  rw [executorMap, hfill]
  exact gatherSlots_map_some _

theorem searchPageDeepBatch_perm (g : Str → Option MLOLBook)
    (books : List PartialBook) (order : List Nat) (hne : books ≠ [])
    (hperm : order.Perm (List.range books.length)) :
    searchPageDeepBatch g books order = Except.ok (books.map (fun b => g b.id)) := by
  have hmin : ¬ (min books.length maxThreads = 0) := by
    cases books with
    | nil => exact absurd rfl hne
    | cons b t =>
      simp only [maxThreads, List.length_cons]
      omega
  have hmap : executorMap (fun id => g id) (books.map (fun b => b.id)) order =
      some ((books.map (fun b => b.id)).map (fun id => g id)) := by
    apply executorMap_perm
    simpa using hperm
  rw [searchPageDeepBatch, mkThreadPool, if_neg hmin]
  rw [hmap]
  simp [List.map_map, Function.comp]

/-- C6: for every search-result page, whatever order the concurrent
enrichment fetches complete in (any permutation of the dispatch indices),
the deep batch equals the sequential map of `get_book_by_id` over the
listing records' ids in listing order; in particular it has one element per
listing record.  (The nonemptiness hypothesis keeps the worker pool legal;
the empty case is claim C10.) -/
theorem claim_C6_deep_batch_order (g : Str → Option MLOLBook)
    (books : List PartialBook) (order : List Nat) (hne : books ≠ [])
    (hperm : order.Perm (List.range books.length)) :
    searchPageDeepBatch g books order = Except.ok (books.map (fun b => g b.id)) ∧
    (books.map (fun b => g b.id)).length = books.length :=
  ⟨searchPageDeepBatch_perm g books order hne hperm, by simp⟩

def wBooks : List PartialBook :=
  [{ id := "11".toList, title := "A".toList, authors := none },
   { id := "22".toList, title := "B".toList, authors := none },
   { id := "33".toList, title := "C".toList, authors := none }]

def wGetBook : Str → Option MLOLBook :=
  fun id => some { id := id, title := "T".toList }

/-- Witness for C6: a three-element batch whose fetches complete in the
order 2, 0, 1 still comes back in listing order. -/
theorem claim_C6_deep_batch_order_witness :
    searchPageDeepBatch wGetBook wBooks [2, 0, 1] =
      Except.ok (wBooks.map (fun b => wGetBook b.id)) :=
  (claim_C6_deep_batch_order wGetBook wBooks [2, 0, 1] (by decide) (by decide)).1

/-- C10: a deep search over a page whose listing parse yields zero records
creates `ThreadPoolExecutor(max_workers=min(0, 5))`, which raises
`ValueError` instead of yielding an empty batch, while the shallow branch
yields the empty list; a page with at least one record does yield a batch. -/
theorem claim_C10_empty_deep_batch :
    (∀ (g : Str → Option MLOLBook) (order : List Nat),
      searchPageStep g true [] order = Except.error PyErr.valueError) ∧
    (∀ (g : Str → Option MLOLBook) (order : List Nat),
      searchPageStep g false [] order = Except.ok (Sum.inl [])) ∧
    (∀ (g : Str → Option MLOLBook) (books : List PartialBook) (order : List Nat),
      books ≠ [] → order.Perm (List.range books.length) →
      searchPageStep g true books order =
        Except.ok (Sum.inr (books.map (fun b => g b.id)))) := by
  refine ⟨fun g order => rfl, fun g order => rfl, fun g books order hne hperm => ?_⟩
  have h := searchPageDeepBatch_perm g books order hne hperm
  rw [searchPageStep, if_pos rfl, h]
  rfl

/-- Witness for C10's nonempty conjunct. -/
theorem claim_C10_empty_deep_batch_witness :
    searchPageStep wGetBook true wBooks [1, 2, 0] =
      Except.ok (Sum.inr (wBooks.map (fun b => wGetBook b.id))) :=
  claim_C10_empty_deep_batch.2.2 wGetBook wBooks [1, 2, 0] (by decide) (by decide)

/-! Helper lemmas about the requests `finishDownload` ends up with: the
request list it returns is the one it was handed, possibly extended by one
redirect-follow. -/

theorem markerOutcome_reqs (bookId : Str) (reqs : List ReqEvent)
    (resp : HttpResp) : (markerOutcome bookId reqs resp).2.1 = reqs := by
  rw [markerOutcome]
  by_cases hm : kwFulfillment.isPrefixOf resp.body = true
  · rw [if_pos hm]
  · rw [if_neg hm]

theorem finishDownload_reqs_cases (w : DlWorld) (bookId : Str)
    (reqs : List ReqEvent) (resp : HttpResp) :
    (finishDownload w bookId reqs resp).2.1 = reqs ∨
      ∃ loc, (finishDownload w bookId reqs resp).2.1 =
        reqs ++ [ReqEvent.followRedirect loc] := by
  rw [finishDownload]
  by_cases h302 : resp.statusCode = 302
  · rw [if_pos h302]
    cases hl : resp.location with
    | none => left; rfl
    | some loc =>
      right
      exact ⟨loc, markerOutcome_reqs bookId _ _⟩
  · rw [if_neg h302]
    left
    exact markerOutcome_reqs bookId _ _

theorem finishDownload_mem_of {e : ReqEvent} {reqs : List ReqEvent}
    (w : DlWorld) (bookId : Str) (resp : HttpResp) (he : e ∈ reqs) :
    e ∈ (finishDownload w bookId reqs resp).2.1 := by
  rcases finishDownload_reqs_cases w bookId reqs resp with h | ⟨loc, h⟩ <;>
    rw [h] <;> simp [he]

theorem finishDownload_not_mem {e : ReqEvent} {reqs : List ReqEvent}
    (w : DlWorld) (bookId : Str) (resp : HttpResp) (he : e ∉ reqs)
    (hf : ∀ loc, e ≠ ReqEvent.followRedirect loc) :
    e ∉ (finishDownload w bookId reqs resp).2.1 := by
  rcases finishDownload_reqs_cases w bookId reqs resp with h | ⟨loc, h⟩ <;> rw [h]
  · exact he
  · simp [he, hf loc]

/-- C4: `download_book_by_id` returns the `None` sentinel without issuing any
request when the `.ASPXAUTH` cookie is missing or empty; a book whose status
is `owned` is routed to the resources lookup and the redownload endpoint and
never to the direct download endpoint; a book whose status is `available` is
routed to the direct download endpoint with the explicit `form=epub`
parameter and never to the redownload flow; any other status produces the
not-available-for-download error naming the actual status, with no request
beyond the initial page fetch. -/
theorem claim_C4_download_routing :
    (∀ (w : DlWorld) (id : Str), cookieFalsy w.aspxauth = true →
      download_book_by_id w id = (Except.ok none, [], [DlLog.errAuthRequired])) ∧
    (∀ (w : DlWorld) (id : Str) (b : MLOLBook) (lid : Str),
      cookieFalsy w.aspxauth = false → w.book = some b →
      b.status = some BookStatus.owned → w.loanId = some lid →
      ReqEvent.resources ∈ (download_book_by_id w id).2.1 ∧
      ReqEvent.redownload lid ∈ (download_book_by_id w id).2.1 ∧
      ∀ u f, ReqEvent.download u f ∉ (download_book_by_id w id).2.1) ∧
    (∀ (w : DlWorld) (id : Str) (b : MLOLBook),
      cookieFalsy w.aspxauth = false → w.book = some b →
      b.status = some BookStatus.available →
      ReqEvent.download id kwEpub ∈ (download_book_by_id w id).2.1 ∧
      ReqEvent.resources ∉ (download_book_by_id w id).2.1 ∧
      ∀ l, ReqEvent.redownload l ∉ (download_book_by_id w id).2.1) ∧
    (∀ (w : DlWorld) (id : Str) (b : MLOLBook),
      cookieFalsy w.aspxauth = false → w.book = some b →
      b.status ≠ some BookStatus.owned → b.status ≠ some BookStatus.available →
      download_book_by_id w id =
        (Except.ok none, [ReqEvent.getBook id], [DlLog.errNotAvailable b.status])) := by
  refine ⟨?_, ?_, ?_, ?_⟩
  · intro w id hc
    rw [download_book_by_id, if_pos hc]
  · intro w id b lid hc hb hs hl
    have hred : (download_book_by_id w id).2.1 =
        (finishDownload w id
          [ReqEvent.getBook id, ReqEvent.resources, ReqEvent.redownload lid]
          w.redownloadResp).2.1 := by
      simp only [download_book_by_id, hc, hb, hs, hl, Bool.false_eq_true,
        if_false, reduceIte]
    rw [hred]
    refine ⟨finishDownload_mem_of w id _ (by simp),
      finishDownload_mem_of w id _ (by simp), ?_⟩
    intro u f
    apply finishDownload_not_mem w id _ (by simp) (fun loc => by simp)
  · intro w id b hc hb hs
    have hdl : download_book_by_id w id =
        finishDownload w id [ReqEvent.getBook id, ReqEvent.download id kwEpub]
          w.downloadResp := by
      simp only [download_book_by_id, hc, hb, hs, Bool.false_eq_true, if_false,
        reduceIte, ne_eq, Option.some.injEq, reduceCtorEq, not_false_eq_true,
        not_true_eq_false]
    rw [hdl]
    refine ⟨finishDownload_mem_of w id _ (by simp), ?_, ?_⟩
    · exact finishDownload_not_mem w id _ (by simp) (fun loc => by simp)
    · intro l
      exact finishDownload_not_mem w id _ (by simp) (fun loc => by simp)
  · intro w id b hc hb hown havail
    simp only [download_book_by_id, hc, hb, Bool.false_eq_true, if_false,
      if_neg hown, if_pos havail]

def dlRespPlain : HttpResp := { statusCode := 200, location := none, body := [] }

def dlWorldNoAuth : DlWorld :=
  { aspxauth := none, book := none, loanId := none,
    redownloadResp := dlRespPlain, downloadResp := dlRespPlain,
    redirectResp := fun _ => dlRespPlain }

def dlBookOwned : MLOLBook :=
  { id := "77".toList, title := "T".toList, status := some BookStatus.owned }

def dlBookAvailable : MLOLBook :=
  { id := "77".toList, title := "T".toList, status := some BookStatus.available }

def dlBookTaken : MLOLBook :=
  { id := "77".toList, title := "T".toList, status := some BookStatus.taken }

def dlWorldOwned : DlWorld :=
  { aspxauth := some ("c".toList), book := some dlBookOwned,
    loanId := some ("900".toList), redownloadResp := dlRespPlain,
    downloadResp := dlRespPlain, redirectResp := fun _ => dlRespPlain }

def dlWorldAvailable : DlWorld :=
  { aspxauth := some ("c".toList), book := some dlBookAvailable,
    loanId := none, redownloadResp := dlRespPlain,
    downloadResp := dlRespPlain, redirectResp := fun _ => dlRespPlain }

def dlWorldTaken : DlWorld :=
  { aspxauth := some ("c".toList), book := some dlBookTaken,
    loanId := none, redownloadResp := dlRespPlain,
    downloadResp := dlRespPlain, redirectResp := fun _ => dlRespPlain }

def dlId : Str := "77".toList

/-- Witness for C4: each routing branch applied at a concrete world. -/
theorem claim_C4_download_routing_witness :
    download_book_by_id dlWorldNoAuth dlId =
      (Except.ok none, [], [DlLog.errAuthRequired]) ∧
    ReqEvent.redownload ("900".toList) ∈ (download_book_by_id dlWorldOwned dlId).2.1 ∧
    ReqEvent.download dlId kwEpub ∈ (download_book_by_id dlWorldAvailable dlId).2.1 ∧
    download_book_by_id dlWorldTaken dlId =
      (Except.ok none, [ReqEvent.getBook dlId],
        [DlLog.errNotAvailable (some BookStatus.taken)]) := by
  refine ⟨?_, ?_, ?_, ?_⟩
  · exact claim_C4_download_routing.1 dlWorldNoAuth dlId (by decide)
  · exact (claim_C4_download_routing.2.1 dlWorldOwned dlId dlBookOwned ("900".toList)
      (by decide) rfl rfl rfl).2.1
  · exact (claim_C4_download_routing.2.2.1 dlWorldAvailable dlId dlBookAvailable
      (by decide) rfl rfl).1
  · exact claim_C4_download_routing.2.2.2 dlWorldTaken dlId dlBookTaken
      (by decide) rfl (by decide) (by decide)

def dlWorldLookupFails : DlWorld :=
  { aspxauth := some ("c".toList), book := none,
    loanId := none, redownloadResp := dlRespPlain,
    downloadResp := dlRespPlain, redirectResp := fun _ => dlRespPlain }

def dlWorldLoanMissing : DlWorld :=
  { aspxauth := some ("c".toList), book := some dlBookOwned,
    loanId := none, redownloadResp := dlRespPlain,
    downloadResp := dlRespPlain, redirectResp := fun _ => dlRespPlain }

/-- Counterexample to C5: with an authenticated cookie present but
`get_book_by_id` yielding no record, `download_book_by_id` does not return
the `None` sentinel — reading `book.status` on `None` raises
`AttributeError`, which is not a transport-level fault. -/
theorem claim_C5_sentinel_failures_cex :
    (download_book_by_id dlWorldLookupFails dlId).1 =
        Except.error PyErr.attributeError ∧
    (download_book_by_id dlWorldLookupFails dlId).1 ≠ Except.ok none := by
  refine ⟨rfl, ?_⟩
  intro h
  rw [show (download_book_by_id dlWorldLookupFails dlId).1 =
      Except.error PyErr.attributeError from rfl] at h
  exact Except.noConfusion h

/-- C5 as amended: authentication absent, a book whose status allows no
download, and an absent content marker are each reported via a logged error
and the `None` sentinel; but a book lookup yielding no record raises
`AttributeError`, and a missing loan entry for an owned book is logged and
then re-raised by `_redownload_owned_book`, so those two business failures
do reach the caller as exceptions. -/
theorem claim_C5_sentinel_failures :
    (∀ (w : DlWorld) (id : Str), cookieFalsy w.aspxauth = true →
      (download_book_by_id w id).1 = Except.ok none ∧
      DlLog.errAuthRequired ∈ (download_book_by_id w id).2.2) ∧
    (∀ (w : DlWorld) (id : Str) (b : MLOLBook),
      cookieFalsy w.aspxauth = false → w.book = some b →
      b.status ≠ some BookStatus.owned → b.status ≠ some BookStatus.available →
      (download_book_by_id w id).1 = Except.ok none ∧
      DlLog.errNotAvailable b.status ∈ (download_book_by_id w id).2.2) ∧
    (∀ (w : DlWorld) (id : Str) (b : MLOLBook),
      cookieFalsy w.aspxauth = false → w.book = some b →
      b.status = some BookStatus.available →
      w.downloadResp.statusCode ≠ 302 →
      kwFulfillment.isPrefixOf w.downloadResp.body = false →
      (download_book_by_id w id).1 = Except.ok none ∧
      DlLog.errDownloadFailed id ∈ (download_book_by_id w id).2.2) ∧
    (∀ (w : DlWorld) (id : Str),
      cookieFalsy w.aspxauth = false → w.book = none →
      (download_book_by_id w id).1 = Except.error PyErr.attributeError) ∧
    (∀ (w : DlWorld) (id : Str) (b : MLOLBook),
      cookieFalsy w.aspxauth = false → w.book = some b →
      b.status = some BookStatus.owned → w.loanId = none →
      (download_book_by_id w id).1 = Except.error PyErr.reraised ∧
      DlLog.errLoanNotFound id ∈ (download_book_by_id w id).2.2) := by
  refine ⟨?_, ?_, ?_, ?_, ?_⟩
  · intro w id hc
    rw [download_book_by_id, if_pos hc]
    exact ⟨rfl, by simp⟩
  · intro w id b hc hb hown havail
    have hd : download_book_by_id w id =
        (Except.ok none, [ReqEvent.getBook id], [DlLog.errNotAvailable b.status]) := by
      simp only [download_book_by_id, hc, hb, Bool.false_eq_true, if_false,
        if_neg hown, if_pos havail]
    rw [hd]
    exact ⟨rfl, by simp⟩
  · intro w id b hc hb hs h302 hm
    have hd : download_book_by_id w id =
        finishDownload w id [ReqEvent.getBook id, ReqEvent.download id kwEpub]
          w.downloadResp := by
      simp only [download_book_by_id, hc, hb, hs, Bool.false_eq_true, if_false,
        reduceIte, ne_eq, Option.some.injEq, reduceCtorEq, not_false_eq_true,
        not_true_eq_false]
    rw [hd, finishDownload, if_neg h302, markerOutcome, hm]
    exact ⟨by simp, by simp⟩
  · intro w id hc hb
    simp only [download_book_by_id, hc, hb, Bool.false_eq_true, if_false]
  · intro w id b hc hb hs hl
    have hd : download_book_by_id w id =
        (Except.error PyErr.reraised, [ReqEvent.getBook id, ReqEvent.resources],
          [DlLog.infoRedownloading, DlLog.errLoanNotFound id]) := by
      simp only [download_book_by_id, hc, hb, hs, hl, Bool.false_eq_true,
        if_false, reduceIte]
    rw [hd]
    exact ⟨rfl, by simp⟩

def dlRespNoMarker : HttpResp :=
  { statusCode := 200, location := none, body := "<html>errore".toList }

def dlWorldMarkerAbsent : DlWorld :=
  { aspxauth := some ("c".toList), book := some dlBookAvailable,
    loanId := none, redownloadResp := dlRespPlain,
    downloadResp := dlRespNoMarker, redirectResp := fun _ => dlRespPlain }

/-- Witness for the amended C5: each failure mode applied at a concrete
world. -/
theorem claim_C5_sentinel_failures_witness :
    (download_book_by_id dlWorldNoAuth dlId).1 = Except.ok none ∧
    (download_book_by_id dlWorldTaken dlId).1 = Except.ok none ∧
    (download_book_by_id dlWorldMarkerAbsent dlId).1 = Except.ok none ∧
    DlLog.errDownloadFailed dlId ∈ (download_book_by_id dlWorldMarkerAbsent dlId).2.2 ∧
    (download_book_by_id dlWorldLoanMissing dlId).1 = Except.error PyErr.reraised := by
  refine ⟨?_, ?_, ?_, ?_, ?_⟩
  · exact (claim_C5_sentinel_failures.1 dlWorldNoAuth dlId (by decide)).1
  · exact (claim_C5_sentinel_failures.2.1 dlWorldTaken dlId dlBookTaken (by decide)
      rfl (by decide) (by decide)).1
  · exact (claim_C5_sentinel_failures.2.2.1 dlWorldMarkerAbsent dlId dlBookAvailable
      (by decide) rfl rfl (by decide) (by decide)).1
  · exact (claim_C5_sentinel_failures.2.2.1 dlWorldMarkerAbsent dlId dlBookAvailable
      (by decide) rfl rfl (by decide) (by decide)).2
  · exact (claim_C5_sentinel_failures.2.2.2.2 dlWorldLoanMissing dlId dlBookOwned
      (by decide) rfl rfl rfl).1

/-! Concrete detail pages exercising `_parse_book_page`. -/

def descOkChild : DescChild :=
  { hasText := true, truthy := true, text := "Trama del libro".toList }

def detailPageNoDesc : BookPageView :=
  { titleEl := some ("Il titolo".toList), authorsEl := none, publisherEl := none,
    isbnEls := [], statusEl := none, descriptionDiv := none,
    languageEl := some ("italiano".toList), yearEl := none, formatsSpan := none }

def detailPageBadYear : BookPageView :=
  { titleEl := some ("Il titolo".toList), authorsEl := none, publisherEl := none,
    isbnEls := [], statusEl := none, descriptionDiv := some [descOkChild],
    languageEl := some ("italiano".toList), yearEl := some ("circa 1900".toList),
    formatsSpan := none }

def detailPageGood : BookPageView :=
  { titleEl := some ("Il titolo".toList), authorsEl := none, publisherEl := none,
    isbnEls := [], statusEl := none, descriptionDiv := some [descOkChild],
    languageEl := some ("italiano".toList), yearEl := some (" 1901 ".toList),
    formatsSpan := none }

/-- C2 (code bug, evaluated at the failing inputs): on a detail page whose
description div is absent, `_parse_book_page` raises `TypeError` from
`filter(..., None)` before the language, year and formats fields are ever
visited; on a page whose year element holds non-integer text it raises
`ValueError` from `int()`.  The same pages with the one offending element
fixed parse fine, so the failures are not caused by any other field. -/
theorem claim_C2_detail_independence :
    parse_book_page detailPageNoDesc = Except.error PyErr.typeError ∧
    parse_book_page detailPageBadYear = Except.error PyErr.valueError ∧
    parse_book_page detailPageGood =
      Except.ok { title := some ("Il titolo".toList),
                  description := some ("Trama del libro".toList),
                  language := some ("italiano".toList), year := some 1901 } := by
  refine ⟨rfl, rfl, rfl⟩

/-! Concrete listing pages exercising `_parse_search_page`. -/

def listingItemValid : ResultItem :=
  { h4TitleAttr := some ("Un titolo".toList),
    aHref := some ("scheda.aspx?id=123".toList),
    authorref := some (some ("Anna; Bruno".toList)) }

def listingItemNoAuthors : ResultItem :=
  { h4TitleAttr := some ("Un titolo".toList),
    aHref := some ("scheda.aspx?id=123".toList),
    authorref := none }

def listingItemMalformed : ResultItem :=
  { h4TitleAttr := none, aHref := some ("scheda.aspx".toList), authorref := none }

def listingPageOk : ListingPage :=
  { items := [listingItemValid, listingItemMalformed], firstP := none }

def listingPageNameErr : ListingPage :=
  { items := [listingItemNoAuthors],
    firstP := some { itemprop := some ("name".toList),
                     string := some ("Autore".toList) } }

/-- C3 (code bug, evaluated at the failing input): on a well-behaved page
the parser returns the N=1 extractable records in order and logs the K=1
skipped item under its 1-based position; but on a page whose only item has a
valid ID and title, no author link, and a page-level first paragraph with an
`itemprop` different from `author`, the loop's `authors` local is never
assigned and the whole parse aborts with `NameError` instead of returning
that record. -/
theorem claim_C3_listing_skip :
    parse_search_page listingPageOk =
      Except.ok ([{ id := "123".toList, title := "Un titolo".toList,
                    authors := some ["Anna".toList, "Bruno".toList] }], [2]) ∧
    parse_search_page listingPageNameErr = Except.error PyErr.nameError := by
  refine ⟨rfl, rfl⟩

/-! Format/DRM string parsing (the tail of `_parse_book_page`). -/

def fmtPageOnly (s : Str) : BookPageView :=
  { titleEl := none, authorsEl := none, publisherEl := none, isbnEls := [],
    statusEl := none, descriptionDiv := none, languageEl := none,
    yearEl := none, formatsSpan := some s }

def fmtInputDrm : Str := "EPUB/PDF con DRM Adobe".toList
def fmtInputNoDrm : Str := "PDF senza protezioni".toList

/-- C7: the formats field comes from the first whitespace-delimited token of
the combined string, split on `/` and lower-cased, and the drm flag is the
substring test of `drm` against the lower-cased whole string; in particular
`"EPUB/PDF con DRM Adobe"` gives `formats = ["epub", "pdf"]`, `drm = true`
and `"PDF senza protezioni"` gives `formats = ["pdf"]`, `drm = false`. -/
theorem claim_C7_format_parsing :
    (∀ (p : BookPageView) (d : BookData) (s t : Str) (rest : List Str),
      p.formatsSpan = some s → pySplitWS (pyStrip s) = t :: rest →
      (applyFormats p d).formats =
          some ((t.splitOn '/').map (fun f => pyLower (pyStrip f))) ∧
      (applyFormats p d).drm = some (hasSubstr (pyLower (pyStrip s)) kwDrm)) ∧
    (applyFormats (fmtPageOnly fmtInputDrm) {}).formats =
        some ["epub".toList, "pdf".toList] ∧
    (applyFormats (fmtPageOnly fmtInputDrm) {}).drm = some true ∧
    (applyFormats (fmtPageOnly fmtInputNoDrm) {}).formats =
        some ["pdf".toList] ∧
    (applyFormats (fmtPageOnly fmtInputNoDrm) {}).drm = some false := by
  refine ⟨?_, by decide, by decide, by decide, by decide⟩
  intro p d s t rest hp hsplit
  constructor
  · simp [applyFormats, hp, hsplit]
  · simp [applyFormats, hp, hsplit]

/-- Witness for C7's general conjunct, applied at the DRM example. -/
theorem claim_C7_format_parsing_witness :
    (applyFormats (fmtPageOnly fmtInputDrm) {}).formats =
        some ((("EPUB/PDF".toList).splitOn '/').map (fun f => pyLower (pyStrip f))) ∧
    (applyFormats (fmtPageOnly fmtInputDrm) {}).drm =
        some (hasSubstr (pyLower (pyStrip fmtInputDrm)) kwDrm) :=
  claim_C7_format_parsing.1 (fmtPageOnly fmtInputDrm) {} fmtInputDrm
    ("EPUB/PDF".toList) ["con".toList, "DRM".toList, "Adobe".toList]
    rfl (by decide)

/-- C8: with a result-message element present, the reservation outcome is
`true` for a message containing `con successo`; `true` plus a logged warning
for one containing `prenotazione attiva` (and not the success phrase);
`false` plus a logged error for any other message; with no result-message
element, the unknown-outcome failure is logged (and the function returns
Python `None`). -/
theorem claim_C8_reserve_outcome (t : Str) :
    (hasSubstr (pyLower (pyStrip t)) kwConSuccesso = true →
      reserve_outcome (some t) = (some true, [])) ∧
    (hasSubstr (pyLower (pyStrip t)) kwConSuccesso = false →
      hasSubstr (pyLower (pyStrip t)) kwPrenotazioneAttiva = true →
      reserve_outcome (some t) = (some true, [ReserveLog.warnActiveReservation])) ∧
    (hasSubstr (pyLower (pyStrip t)) kwConSuccesso = false →
      hasSubstr (pyLower (pyStrip t)) kwPrenotazioneAttiva = false →
      reserve_outcome (some t) = (some false, [ReserveLog.errFailed])) ∧
    reserve_outcome none = (none, [ReserveLog.errUnknownOutcome]) := by
  refine ⟨?_, ?_, ?_, rfl⟩
  · intro h1
    simp [reserve_outcome, h1]
  · intro h1 h2
    simp [reserve_outcome, h1, h2]
  · intro h1 h2
    simp [reserve_outcome, h1, h2]

def msgSuccess : Str := "Prenotazione effettuata CON SUCCESSO".toList
def msgActive : Str := "Esiste una prenotazione attiva".toList
def msgOther : Str := "Errore imprevisto".toList

/-- Witness for C8: each outcome branch applied at a concrete message. -/
theorem claim_C8_reserve_outcome_witness :
    reserve_outcome (some msgSuccess) = (some true, []) ∧
    reserve_outcome (some msgActive) =
      (some true, [ReserveLog.warnActiveReservation]) ∧
    reserve_outcome (some msgOther) = (some false, [ReserveLog.errFailed]) := by
  refine ⟨?_, ?_, ?_⟩
  · exact (claim_C8_reserve_outcome msgSuccess).1 (by decide)
  · exact (claim_C8_reserve_outcome msgActive).2.1 (by decide) (by decide)
  · exact (claim_C8_reserve_outcome msgOther).2.2.1 (by decide) (by decide)

/-! Authentication failure (`_get_auth_cookies`). -/

def loginFormsNoUser : List LoginForm :=
  [{ fields := ["susername".toList, "spassword".toList] }]

def unitSubmit : LoginForm → Unit := fun _ => ()

/-- Counterexample to C9: on a login page with no form carrying a
`lusername` field, `_get_auth_cookies` raises `IndexError` (from indexing
the empty filtered form list), not `AuthenticationError` — indeed no
`AuthenticationError` class exists anywhere in the code. -/
theorem claim_C9_auth_error_cex :
    get_auth_cookies loginFormsNoUser unitSubmit = Except.error PyErr.indexError ∧
    PyErr.indexError ≠ PyErr.authenticationError := by
  exact ⟨rfl, by decide⟩

/-- C9 as amended: when the login page contains no HTML form with a
`lusername` field, the authentication flow fails by raising an error — an
`IndexError` from `[...][0]` on the empty list of matching forms, there
being no `AuthenticationError` type in the code. -/
theorem claim_C9_auth_error {κ : Type} (forms : List LoginForm)
    (submitted : LoginForm → κ)
    (h : ∀ f ∈ forms, f.fields.contains kwLusername = false) :
    get_auth_cookies forms submitted = Except.error PyErr.indexError := by
  have hfil : forms.filter (fun f => f.fields.contains kwLusername) = [] :=
    List.filter_eq_nil_iff.mpr (fun f hf => by
      simp only [h f hf]
      exact Bool.false_ne_true)
  simp only [get_auth_cookies, hfil]

/-- Witness for the amended C9. -/
theorem claim_C9_auth_error_witness :
    get_auth_cookies loginFormsNoUser unitSubmit = Except.error PyErr.indexError :=
  claim_C9_auth_error loginFormsNoUser unitSubmit (by decide)

end MlolClient
